import Mathlib

/-!
Verification of the moderation core of a Discord community-management bot:
guild configuration store (`guild_config.py`), warning ledger and spam
tracker (`cogs/automod.py`), and raid tracker with lockdown state
(`cogs/antiraid.py`).  Python dictionaries are modelled as association
lists, `datetime` instants as natural numbers (seconds), and each method
that reads the clock takes `now` as an explicit parameter.  External
platform actions (kick/ban/timeout) are modelled by boolean success
parameters where their success changes subsequent bookkeeping.
-/

set_option autoImplicit false

universe u v

/-- Association-list lookup, modelling Python `dict.get` / `d[k]` reads.
Returns the first binding for `k`. -/
def alookup {κ : Type u} {α : Type v} [DecidableEq κ] : List (κ × α) → κ → Option α
  | [], _ => none
  | (k', v') :: rest, k => if k' = k then some v' else alookup rest k

/-- Association-list update, modelling Python `d[k] = v`: replaces the
binding in place if present, otherwise appends it (Python dicts keep
insertion order). -/
def aset {κ : Type u} {α : Type v} [DecidableEq κ] : List (κ × α) → κ → α → List (κ × α)
  | [], k, v => [(k, v)]
  | (k', v') :: rest, k, v => if k' = k then (k, v) :: rest else (k', v') :: aset rest k v

/-- Association-list removal, modelling Python `del d[k]`. -/
def aremove {κ : Type u} {α : Type v} [DecidableEq κ] : List (κ × α) → κ → List (κ × α)
  | [], _ => []
  | (k', v') :: rest, k => if k' = k then aremove rest k else (k', v') :: aremove rest k

theorem alookup_aset_self {κ : Type u} {α : Type v} [DecidableEq κ]
    (m : List (κ × α)) (k : κ) (v : α) : alookup (aset m k v) k = some v := by
  induction m with
  | nil => simp [aset, alookup]
  | cons hd tl ih =>
    obtain ⟨k', v'⟩ := hd
    by_cases h : k' = k
    · simp [aset, alookup, h]
    · simp [aset, alookup, h, ih]

theorem alookup_aremove_self {κ : Type u} {α : Type v} [DecidableEq κ]
    (m : List (κ × α)) (k : κ) : alookup (aremove m k) k = none := by
  induction m with
  | nil => simp [aremove, alookup]
  | cons hd tl ih =>
    obtain ⟨k', v'⟩ := hd
    by_cases h : k' = k
    · simp [aremove, h, ih]
    · simp [aremove, alookup, h, ih]

/-! ## Guild configuration store (`guild_config.py`, class `GuildConfig`)

Per-guild configuration is a JSON document; `get`/`set` address it with
dot-separated key paths.  `JValue` models the JSON values that appear in
these documents (objects as ordered association lists, as in Python). -/

inductive JValue : Type where
  /-- Python `None` / JSON `null`. -/
  | null : JValue
  | bool : Bool → JValue
  | num : Int → JValue
  | str : String → JValue
  | obj : List (String × JValue) → JValue

/-- The walk of `GuildConfig.get` (guild_config.py lines 116-122) without
the final `None`-to-default step: descend through nested dicts along
`keys`, `none` as soon as a level is not a dict or lacks the key. -/
def rawGet : JValue → List String → Option JValue
  | v, [] => some v
  | JValue.obj fs, k :: rest =>
    match alookup fs k with
    | some c => rawGet c rest
    | none => none
  | _, _ :: _ => none

/-- `GuildConfig.get` on an already-loaded document (guild_config.py lines
110-124): walk the key path; any miss returns `dflt`; a found value of
`None` also returns `dflt` (`return value if value is not None else default`). -/
def getPath (v : JValue) (keys : List String) (dflt : JValue) : JValue :=
  match rawGet v keys with
  | some JValue.null => dflt
  | some r => r
  | none => dflt

/-- `GuildConfig.set` on an already-loaded document (guild_config.py lines
144-151): walk `keys[:-1]` creating empty dicts for missing levels; `none`
models the `TypeError` Python raises when an existing intermediate value or
the final container is not a dict. -/
def setPath : JValue → List String → JValue → Option JValue
  | JValue.obj fs, [k], v => some (JValue.obj (aset fs k v))
  | JValue.obj fs, k :: k2 :: rest, v =>
    (match alookup fs k with
     | some (JValue.obj cfs) =>
       match setPath (JValue.obj cfs) (k2 :: rest) v with
       | some child => some (JValue.obj (aset fs k child))
       | none => none
     | some _ => none
     | none =>
       match setPath (JValue.obj []) (k2 :: rest) v with
       | some child => some (JValue.obj (aset fs k child))
       | none => none)
  | _, _, _ => none

/-- Helper for `splitOnDot`: accumulates the current segment (reversed). -/
def splitOnDotAux : List Char → List Char → List String
  | [], acc => [String.mk acc.reverse]
  | c :: rest, acc =>
    if c = '.' then String.mk acc.reverse :: splitOnDotAux rest []
    else splitOnDotAux rest (c :: acc)

/-- Python `key.split(".")` as used by `GuildConfig.get`/`set`: splits on
every dot, keeping empty segments (`"".split(".") == [""]`). -/
def splitOnDot (s : String) : List String := splitOnDotAux s.data []

/-- `GuildConfig._get_default_config` (guild_config.py lines 81-96). -/
def defaultGuildConfig : JValue :=
  JValue.obj
    [("log_channel_id", JValue.null),
     ("setup_complete", JValue.bool false),
     ("roles", JValue.obj
       [("muted", JValue.null), ("support", JValue.null),
        ("admin", JValue.null), ("moderator", JValue.null)]),
     ("channels", JValue.obj
       [("logs", JValue.null), ("ticket_category", JValue.null)])]

/-- The `GuildConfig` store: in-memory cache plus the durable per-guild
files (`data/guilds/<id>.json`), both keyed by guild id. -/
structure GuildConfig : Type where
  cache : List (Nat × JValue)
  disk : List (Nat × JValue)

/-- The document `get`/`set` operate on: the cached one if present, else
`_load_guild_config` (disk file if it exists, else the defaults). -/
def GuildConfig.loadCfg (st : GuildConfig) (g : Nat) : JValue :=
  match alookup st.cache g with
  | some c => c
  | none =>
    match alookup st.disk g with
    | some c => c
    | none => defaultGuildConfig

/-- `GuildConfig.get` (guild_config.py lines 98-124). -/
def GuildConfig.get (st : GuildConfig) (g : Nat) (key : String) (dflt : JValue) : JValue :=
  getPath (st.loadCfg g) (splitOnDot key) dflt

/-- `GuildConfig.set` (guild_config.py lines 126-153).  `save_ok` models
whether `_save_guild_config` succeeds (no I/O error); on save failure the
cache is still updated but the disk copy is left stale and `False` is
returned.  `none` models the `TypeError` raised on a non-dict intermediate. -/
def GuildConfig.set (st : GuildConfig) (g : Nat) (key : String) (v : JValue)
    (save_ok : Bool) : Option (GuildConfig × Bool) :=
  match setPath (st.loadCfg g) (splitOnDot key) v with
  | none => none
  | some cfg' =>
    some ({ cache := aset st.cache g cfg',
            disk := if save_ok then aset st.disk g cfg' else st.disk }, save_ok)

/-- `GuildConfig.reload` (guild_config.py lines 218-227): drop the cached
entry and re-read it from persisted state. -/
def GuildConfig.reload (st : GuildConfig) (g : Nat) : GuildConfig :=
  { st with
    cache := aset st.cache g
      (match alookup st.disk g with
       | some c => c
       | none => defaultGuildConfig) }

theorem rawGet_setPath : ∀ (keys : List String) (cfg cfg' v : JValue),
    setPath cfg keys v = some cfg' → rawGet cfg' keys = some v := by
  intro keys
  induction keys with
  | nil => intro cfg cfg' v h; cases cfg <;> simp [setPath] at h
  | cons k rest ih =>
    intro cfg cfg' v h
    cases rest with
    | nil =>
      cases cfg <;> simp [setPath] at h
      case obj fs =>
        subst h
        simp [rawGet, alookup_aset_self]
    | cons k2 rest' =>
      cases cfg <;> simp [setPath] at h
      case obj fs =>
        cases hl : alookup fs k with
        | none =>
          rw [hl] at h
          cases hs : setPath (JValue.obj []) (k2 :: rest') v with
          | none => rw [hs] at h; simp at h
          | some child =>
            rw [hs] at h
            simp at h
            subst h
            simp [rawGet, alookup_aset_self]
            exact ih _ _ _ hs
        | some c =>
          rw [hl] at h
          cases c <;> simp at h
          case obj cfs =>
            cases hs : setPath (JValue.obj cfs) (k2 :: rest') v with
            | none => rw [hs] at h; simp at h
            | some child =>
              rw [hs] at h
              simp at h
              subst h
              simp [rawGet, alookup_aset_self]
              exact ih _ _ _ hs

theorem getPath_setPath_null (keys : List String) (cfg cfg' v : JValue)
    (h : setPath cfg keys v = some cfg') : getPath cfg' keys JValue.null = v := by
  have hr := rawGet_setPath keys cfg cfg' v h
  unfold getPath
  rw [hr]
  cases v <;> rfl

theorem getPath_setPath_dflt (keys : List String) (cfg cfg' dflt : JValue)
    (h : setPath cfg keys JValue.null = some cfg') : getPath cfg' keys dflt = dflt := by
  have hr := rawGet_setPath keys cfg cfg' JValue.null h
  unfold getPath
  rw [hr]

/-- Decomposes a `GuildConfig.set` call that returned a result. -/
theorem GuildConfig.set_eq_some (st : GuildConfig) (g : Nat) (key : String)
    (v : JValue) (save : Bool) (st' : GuildConfig) (b : Bool)
    (h : GuildConfig.set st g key v save = some (st', b)) :
    b = save ∧ ∃ cfg', setPath (st.loadCfg g) (splitOnDot key) v = some cfg'
      ∧ st' = { cache := aset st.cache g cfg',
                disk := if save then aset st.disk g cfg' else st.disk } := by
  unfold GuildConfig.set at h
  cases hs : setPath (st.loadCfg g) (splitOnDot key) v with
  | none => rw [hs] at h; simp at h
  | some cfg' =>
    rw [hs] at h
    simp at h
    exact ⟨h.2.symm, cfg', rfl, h.1.symm⟩

/-- Claim C3: round-trip of the guild configuration store — after
`set(guild, key, v)` succeeds (no type error on the path and the durable
save succeeds, i.e. the call returns `True`), `get(guild, key)` returns `v`
immediately, and still returns `v` after the store is reloaded from
persisted state. -/
theorem guildconfig_set_get_roundtrip (st : GuildConfig) (g : Nat) (key : String)
    (v : JValue) (st' : GuildConfig)
    (h : GuildConfig.set st g key v true = some (st', true)) :
    GuildConfig.get st' g key JValue.null = v
    ∧ GuildConfig.get (st'.reload g) g key JValue.null = v := by
  obtain ⟨-, cfg', hsp, hst⟩ := GuildConfig.set_eq_some st g key v true st' true h
  subst hst
  constructor
  · unfold GuildConfig.get GuildConfig.loadCfg
    simp only [alookup_aset_self]
    exact getPath_setPath_null _ _ _ _ hsp
  · unfold GuildConfig.get GuildConfig.reload GuildConfig.loadCfg
    simp only [if_true, alookup_aset_self]
    exact getPath_setPath_null _ _ _ _ hsp

/-- The document obtained by setting `roles.muted := 42` in the default
guild configuration. -/
def cfgRolesMuted42 : JValue :=
  JValue.obj
    [("log_channel_id", JValue.null),
     ("setup_complete", JValue.bool false),
     ("roles", JValue.obj
       [("muted", JValue.num 42), ("support", JValue.null),
        ("admin", JValue.null), ("moderator", JValue.null)]),
     ("channels", JValue.obj
       [("logs", JValue.null), ("ticket_category", JValue.null)])]

/-- The store state after `set(1, "roles.muted", 42)` on an empty store. -/
def storeAfterMutedSet : GuildConfig :=
  ⟨[(1, cfgRolesMuted42)], [(1, cfgRolesMuted42)]⟩

theorem guildconfig_set_get_roundtrip_witness :
    GuildConfig.get storeAfterMutedSet 1 "roles.muted" JValue.null = JValue.num 42
    ∧ GuildConfig.get (storeAfterMutedSet.reload 1) 1 "roles.muted" JValue.null
        = JValue.num 42 :=
  guildconfig_set_get_roundtrip ⟨[], []⟩ 1 "roles.muted" (JValue.num 42)
    storeAfterMutedSet (by rfl)

/-- Claim C9 (implicit): `GuildConfig.get` returns the supplied default
whenever the stored value at the key is `None`, so a `None` written via
`set` — and any key that is simply unset — are indistinguishable through
`get`. -/
theorem guildconfig_none_default (st : GuildConfig) (g : Nat) (key : String)
    (dflt : JValue) :
    (rawGet (st.loadCfg g) (splitOnDot key) = some JValue.null →
      GuildConfig.get st g key dflt = dflt)
    ∧ (rawGet (st.loadCfg g) (splitOnDot key) = none →
      GuildConfig.get st g key dflt = dflt)
    ∧ (∀ st', GuildConfig.set st g key JValue.null true = some (st', true) →
      GuildConfig.get st' g key dflt = dflt) := by
  refine ⟨?_, ?_, ?_⟩
  · intro h
    unfold GuildConfig.get getPath
    rw [h]
  · intro h
    unfold GuildConfig.get getPath
    rw [h]
  · intro st' h
    obtain ⟨-, cfg', hsp, hst⟩ := GuildConfig.set_eq_some st g key JValue.null true st' true h
    subst hst
    unfold GuildConfig.get GuildConfig.loadCfg
    simp only [alookup_aset_self]
    exact getPath_setPath_dflt _ _ _ _ hsp

/-- The store state after `set(2, "log_channel_id", None)` on an empty
store (the written `None` replaces the default `None`, so the document is
the default one). -/
def storeAfterNullSet : GuildConfig :=
  ⟨[(2, defaultGuildConfig)], [(2, defaultGuildConfig)]⟩

theorem guildconfig_none_default_witness :
    GuildConfig.get (⟨[], []⟩ : GuildConfig) 2 "log_channel_id" (JValue.num 9)
        = JValue.num 9
    ∧ GuildConfig.get storeAfterNullSet 2 "log_channel_id" (JValue.num 9)
        = JValue.num 9 :=
  ⟨(guildconfig_none_default ⟨[], []⟩ 2 "log_channel_id" (JValue.num 9)).1 (by rfl),
   (guildconfig_none_default ⟨[], []⟩ 2 "log_channel_id" (JValue.num 9)).2.2
     storeAfterNullSet (by rfl)⟩

/-! ## Warning ledger (`cogs/automod.py`, class `UserWarnings`)

`{guild_id: {user_id: [warning_timestamps]}}`, modelled as nested
association lists.  Python's `defaultdict` auto-vivification of empty
sub-dicts is represented by `(alookup · ·).getD []`, which is
observationally equivalent; disk persistence (`_save_guild_warnings`)
mirrors this state per guild and is not modelled separately. -/

abbrev Warnings := List (Nat × List (Nat × List Nat))

/-- `UserWarnings.add_warning` (automod.py lines 81-97): append a
timestamp and return the new total count. -/
def UserWarnings.add_warning (w : Warnings) (g u t : Nat) : Warnings × Nat :=
  let gw := (alookup w g).getD []
  let ts := (alookup gw u).getD []
  let ts' := ts ++ [t]
  (aset w g (aset gw u ts'), ts'.length)

/-- `UserWarnings.get_warning_count` (automod.py lines 99-112). -/
def UserWarnings.get_warning_count (w : Warnings) (g u : Nat) : Nat :=
  ((alookup ((alookup w g).getD []) u).getD []).length

/-- `UserWarnings.clear_warnings` (automod.py lines 114-132): delete the
user's record if present and report whether anything was cleared. -/
def UserWarnings.clear_warnings (w : Warnings) (g u : Nat) : Warnings × Bool :=
  let gw := (alookup w g).getD []
  match alookup gw u with
  | some _ => (aset w g (aremove gw u), true)
  | none => (w, false)

theorem add_warning_count (w : Warnings) (g u t : Nat) :
    (UserWarnings.add_warning w g u t).2 = UserWarnings.get_warning_count w g u + 1
    ∧ UserWarnings.get_warning_count (UserWarnings.add_warning w g u t).1 g u
        = UserWarnings.get_warning_count w g u + 1 := by
  unfold UserWarnings.add_warning UserWarnings.get_warning_count
  simp [alookup_aset_self]

theorem clear_warnings_count_zero (w : Warnings) (g u : Nat) :
    UserWarnings.get_warning_count (UserWarnings.clear_warnings w g u).1 g u = 0 := by
  unfold UserWarnings.clear_warnings UserWarnings.get_warning_count
  cases h : alookup ((alookup w g).getD []) u with
  | none => simp [h]
  | some ts => simp [h, alookup_aset_self, alookup_aremove_self]

/-- `addWarning` composed over a list of timestamps. -/
def add_warnings_n (w : Warnings) (g u : Nat) (times : List Nat) : Warnings :=
  times.foldl (fun acc t => (UserWarnings.add_warning acc g u t).1) w

/-- Claim C7: `addWarning` composed N times followed by `clear` yields
`getCount == 0`; and `clear` for a user with no warning record returns
`False` ("nothing to clear") and leaves the ledger unchanged, in
particular creating no record for that user. -/
theorem warnings_clear_semantics (w : Warnings) (g u : Nat) (times : List Nat) :
    UserWarnings.get_warning_count
        ((UserWarnings.clear_warnings (add_warnings_n w g u times) g u).1) g u = 0
    ∧ (alookup ((alookup w g).getD []) u = none →
        UserWarnings.clear_warnings w g u = (w, false)) := by
  constructor
  · exact clear_warnings_count_zero (add_warnings_n w g u times) g u
  · intro h
    simp [UserWarnings.clear_warnings, h]

theorem warnings_clear_semantics_witness :
    UserWarnings.get_warning_count
        ((UserWarnings.clear_warnings (add_warnings_n [] 1 2 [5, 6, 7]) 1 2).1) 1 2 = 0
    ∧ UserWarnings.clear_warnings ([] : Warnings) 1 2 = ([], false) :=
  ⟨(warnings_clear_semantics [] 1 2 [5, 6, 7]).1,
   (warnings_clear_semantics [] 1 2 [5, 6, 7]).2 (by rfl)⟩

/-! ## Spam tracker (`cogs/automod.py`, class `SpamTracker`)

Per (guild, user): message timestamps plus a duplicate-content tally keyed
by the normalized content.  Contents are modelled as `List Char` (ASCII);
`datetime` comparisons `ts > now - window` are rendered over `Nat` as the
equivalent `now < ts + window`. -/

/-- Python `str.lower` on an ASCII character. -/
def pyLowerChar (c : Char) : Char :=
  if 'A' ≤ c ∧ c ≤ 'Z' then Char.ofNat (c.toNat + 32) else c

/-- Python `str.strip`'s whitespace set (ASCII). -/
def isPySpace (c : Char) : Bool :=
  c = ' ' || c = '\t' || c = '\n' || c = '\r' || c = Char.ofNat 11 || c = Char.ofNat 12

/-- Python `str.strip`: drop leading and trailing whitespace. -/
def pyStrip (l : List Char) : List Char :=
  ((l.dropWhile isPySpace).reverse.dropWhile isPySpace).reverse

/-- The duplicate-tally key of a message content: automod.py line 210,
`content.lower().strip()[:MAX_CONTENT_LENGTH]` with `MAX_CONTENT_LENGTH = 100`. -/
def contentKey (content : List Char) : List Char :=
  (pyStrip (content.map pyLowerChar)).take 100

/-- `SpamTracker` state for one (guild, user): `_messages[g][u]` and
`_content_cache[g][u]`. -/
structure SpamUserState : Type where
  msgs : List Nat
  tally : List (List Char × Nat)

/-- `SpamTracker.add_message` (automod.py lines 178-216): prune timestamps
older than the window, append the new one, bump the duplicate tally for the
normalized content, and return (count in window, duplicate count). -/
def SpamTracker.add_message (st : SpamUserState) (content : List Char)
    (now window : Nat) : SpamUserState × Nat × Nat :=
  let msgs' := st.msgs.filter (fun ts => decide (now < ts + window)) ++ [now]
  let key := contentKey content
  let dup := (alookup st.tally key).getD 0 + 1
  (⟨msgs', aset st.tally key dup⟩, msgs'.length, dup)

/-- A sequence of `add_message` calls, each with its own clock reading. -/
def runMsgs (w : Nat) (st : SpamUserState) : List (Nat × List Char) → SpamUserState
  | [] => st
  | (t, c) :: rest => runMsgs w (SpamTracker.add_message st c t w).1 rest

theorem runMsgs_append (w : Nat) (l1 l2 : List (Nat × List Char)) :
    ∀ st : SpamUserState, runMsgs w st (l1 ++ l2) = runMsgs w (runMsgs w st l1) l2 := by
  induction l1 with
  | nil => intro st; rfl
  | cons hd tl ih =>
    intro st
    obtain ⟨t, c⟩ := hd
    simp only [List.cons_append, runMsgs]
    exact ih _

/-- Pruning the tracked timestamps at any time `tl` at or after every call
recovers exactly the call times within `tl`'s window: the intermediate
prunes never discard a timestamp that is still inside the window at `tl`. -/
theorem runMsgs_filter (w : Nat) : ∀ (calls : List (Nat × List Char)) (tl : Nat),
    (∀ x ∈ calls.map Prod.fst, x ≤ tl) →
    (runMsgs w ⟨[], []⟩ calls).msgs.filter (fun x => decide (tl < x + w))
      = (calls.map Prod.fst).filter (fun x => decide (tl < x + w)) := by
  intro calls
  induction calls using List.reverseRecOn with
  | nil => intro tl _; rfl
  | append_singleton l e ih =>
    intro tl hle
    obtain ⟨t, c⟩ := e
    have ht : t ≤ tl := by
      apply hle
      simp
    rw [runMsgs_append]
    simp only [runMsgs, SpamTracker.add_message]
    rw [List.filter_append, List.filter_filter]
    have hfun : (fun a => decide (tl < a + w) && decide (t < a + w))
        = (fun a => decide (tl < a + w)) := by
      funext a
      by_cases h : tl < a + w
      · have : t < a + w := by omega
        simp [h, this]
      · simp [h]
    rw [hfun, ih tl (fun x hx => hle x (by simp [hx]))]
    simp [List.filter_append]

/-- Claim C2: for every sequence of `recordMessage` calls for one
(guild, user) with non-decreasing clock readings, the `countInWindow`
returned by a call equals the number of calls — including that call —
whose timestamps lie within the trailing `windowSeconds` interval ending
at that call, regardless of older calls now outside the window.  Pruning
happens before the new message is appended (see `add_message`), so the
just-recorded message is included. -/
theorem spamtracker_count_in_window (w : Nat) (calls : List (Nat × List Char))
    (t : Nat) (c : List Char) (hw : 0 < w)
    (hmono : ∀ x ∈ calls.map Prod.fst, x ≤ t) :
    (SpamTracker.add_message (runMsgs w ⟨[], []⟩ calls) c t w).2.1
      = ((calls.map Prod.fst ++ [t]).filter (fun x => decide (t < x + w))).length := by
  simp only [SpamTracker.add_message]
  rw [List.filter_append, List.length_append, runMsgs_filter w calls t hmono]
  have : t < t + w := by omega
  simp [this]

theorem spamtracker_count_in_window_witness :
    (SpamTracker.add_message
        (runMsgs 10 ⟨[], []⟩ [(0, ['a']), (3, ['b']), (20, ['c'])]) ['d'] 21 10).2.1
      = (([0, 3, 20, 21] : List Nat).filter (fun x => decide (21 < x + 10))).length :=
  spamtracker_count_in_window 10 [(0, ['a']), (3, ['b']), (20, ['c'])] 21 ['d']
    (by decide) (by decide)

/-- The normalization exactly as the specification words it: lowercasing
and truncating to 100 characters — without the `strip` the code also
applies.  Kept to compare against `contentKey`. -/
def claimNormalize (content : List Char) : List Char :=
  (content.map pyLowerChar).take 100

/-- Counterexample to claim C8 as stated: the contents `"a "` and `"a"`
are counted under the same duplicate-tally key (the second call returns a
duplicate count of 2), yet they are not equal after lowercasing and
truncating to 100 characters — the code also strips surrounding
whitespace. -/
theorem spam_duplicate_normalization_cx :
    (SpamTracker.add_message
        (SpamTracker.add_message ⟨[], []⟩ ['a', ' '] 0 10).1 ['a'] 1 10).2.2 = 2
    ∧ claimNormalize ['a', ' '] ≠ claimNormalize ['a'] := by decide

/-- Claim C8 (amended): two message contents are counted under the same
duplicate-tally key if and only if they are exactly equal after
lowercasing, stripping leading/trailing whitespace, and truncating to 100
characters (`contentKey`); the match is exact on that normalized string,
with no fuzzy matching.  Behaviorally: recording the two contents on a
fresh tracker yields a duplicate count of 2 for the second exactly when
their normalized forms coincide. -/
theorem spam_duplicate_normalization (c1 c2 : List Char) (t1 t2 w : Nat) :
    (SpamTracker.add_message
        (SpamTracker.add_message ⟨[], []⟩ c1 t1 w).1 c2 t2 w).2.2 = 2
      ↔ contentKey c1 = contentKey c2 := by
  by_cases h : contentKey c1 = contentKey c2
  · simp [SpamTracker.add_message, aset, alookup, h]
  · simp [SpamTracker.add_message, aset, alookup, h]

/-! ## Progressive punishment (`cogs/automod.py`, `AutoMod._handle_spam`)

The decision core of `_handle_spam` (lines 335-438): increment the warning
count, pick ban/kick/timeout by comparing the new count against the
configured thresholds, clear all warnings after a *successful* ban (the
`clear_warnings` call sits after `member.ban` in the `try` block, so a
failed ban skips it — `ban_ok` models that success), and reset the user's
duplicate-content tally on every branch (line 419).  Message deletion and
the external timeout/kick calls have no further effect on the modelled
state. -/

structure AutoModConfig : Type where
  warnings_for_kick : Nat
  warnings_for_ban : Nat
  timeout_duration_minutes : Nat

inductive AutoModAction : Type where
  | timeout : AutoModAction
  | kick : AutoModAction
  | ban : AutoModAction
deriving DecidableEq

structure SpamOutcome : Type where
  warnings : Warnings
  tracker : SpamUserState
  action : AutoModAction
  warning_count : Nat

/-- `AutoMod._handle_spam` (automod.py lines 335-438), decision core. -/
def AutoMod.handle_spam (cfg : AutoModConfig) (w : Warnings) (st : SpamUserState)
    (g u now : Nat) (ban_ok : Bool) : SpamOutcome :=
  let r := UserWarnings.add_warning w g u now
  let n := r.2
  if n ≥ cfg.warnings_for_ban then
    { warnings := if ban_ok then (UserWarnings.clear_warnings r.1 g u).1 else r.1,
      tracker := { st with tally := [] },
      action := AutoModAction.ban,
      warning_count := n }
  else if n ≥ cfg.warnings_for_kick then
    { warnings := r.1,
      tracker := { st with tally := [] },
      action := AutoModAction.kick,
      warning_count := n }
  else
    { warnings := r.1,
      tracker := { st with tally := [] },
      action := AutoModAction.timeout,
      warning_count := n }

/-- Claim C1: progressive punishment with `kickThreshold = 3`,
`banThreshold = 5`, evaluated with the ban action succeeding: after the
warning count is incremented, a new count of 1 or 2 leads to a timeout, a
count of 3 or 4 leads to a kick with the warning count preserved, and a
count of 5 or more leads to a ban together with clearing all warnings for
that user, so the stored count returns to 0. -/
theorem automod_progressive_punishment (w : Warnings) (st : SpamUserState)
    (g u now : Nat) :
    (AutoMod.handle_spam ⟨3, 5, 5⟩ w st g u now true).warning_count
        = UserWarnings.get_warning_count w g u + 1
    ∧ (UserWarnings.get_warning_count w g u + 1 < 3 →
        (AutoMod.handle_spam ⟨3, 5, 5⟩ w st g u now true).action = AutoModAction.timeout
        ∧ UserWarnings.get_warning_count
            (AutoMod.handle_spam ⟨3, 5, 5⟩ w st g u now true).warnings g u
          = UserWarnings.get_warning_count w g u + 1)
    ∧ (3 ≤ UserWarnings.get_warning_count w g u + 1 →
        UserWarnings.get_warning_count w g u + 1 < 5 →
        (AutoMod.handle_spam ⟨3, 5, 5⟩ w st g u now true).action = AutoModAction.kick
        ∧ UserWarnings.get_warning_count
            (AutoMod.handle_spam ⟨3, 5, 5⟩ w st g u now true).warnings g u
          = UserWarnings.get_warning_count w g u + 1)
    ∧ (5 ≤ UserWarnings.get_warning_count w g u + 1 →
        (AutoMod.handle_spam ⟨3, 5, 5⟩ w st g u now true).action = AutoModAction.ban
        ∧ UserWarnings.get_warning_count
            (AutoMod.handle_spam ⟨3, 5, 5⟩ w st g u now true).warnings g u
          = 0) := by
  have hadd := add_warning_count w g u now
  simp only [AutoMod.handle_spam, hadd.1]
  refine ⟨?_, ?_, ?_, ?_⟩
  · split_ifs <;> rfl
  · intro h1
    rw [if_neg (by omega), if_neg (by omega)]
    exact ⟨rfl, hadd.2⟩
  · intro h1 h2
    rw [if_neg (by omega), if_pos (by omega)]
    exact ⟨rfl, hadd.2⟩
  · intro h1
    rw [if_pos (by omega)]
    exact ⟨rfl, clear_warnings_count_zero _ g u⟩

theorem automod_progressive_punishment_witness :
    (AutoMod.handle_spam ⟨3, 5, 5⟩ [] ⟨[], []⟩ 1 2 99 true).action
        = AutoModAction.timeout
    ∧ UserWarnings.get_warning_count
        (AutoMod.handle_spam ⟨3, 5, 5⟩ [] ⟨[], []⟩ 1 2 99 true).warnings 1 2 = 1
    ∧ (AutoMod.handle_spam ⟨3, 5, 5⟩ [(1, [(2, [10, 20])])] ⟨[], []⟩ 1 2 99 true).action
        = AutoModAction.kick
    ∧ UserWarnings.get_warning_count
        (AutoMod.handle_spam ⟨3, 5, 5⟩ [(1, [(2, [10, 20])])] ⟨[], []⟩ 1 2 99
          true).warnings 1 2 = 3
    ∧ (AutoMod.handle_spam ⟨3, 5, 5⟩ [(1, [(2, [10, 20, 30, 40])])] ⟨[], []⟩ 1 2 99
          true).action = AutoModAction.ban
    ∧ UserWarnings.get_warning_count
        (AutoMod.handle_spam ⟨3, 5, 5⟩ [(1, [(2, [10, 20, 30, 40])])] ⟨[], []⟩ 1 2 99
          true).warnings 1 2 = 0 := by
  refine ⟨?Ht, ?Hc, ?Hk, ?Hkc, ?Hb, ?Hbc⟩
  case Ht => exact ((automod_progressive_punishment [] ⟨[], []⟩ 1 2 99).2.1 (by decide)).1
  case Hc => exact ((automod_progressive_punishment [] ⟨[], []⟩ 1 2 99).2.1 (by decide)).2
  case Hk =>
    exact ((automod_progressive_punishment [(1, [(2, [10, 20])])] ⟨[], []⟩ 1 2 99).2.2.1
      (by decide) (by decide)).1
  case Hkc =>
    exact ((automod_progressive_punishment [(1, [(2, [10, 20])])] ⟨[], []⟩ 1 2 99).2.2.1
      (by decide) (by decide)).2
  case Hb =>
    exact ((automod_progressive_punishment [(1, [(2, [10, 20, 30, 40])])] ⟨[], []⟩
      1 2 99).2.2.2 (by decide)).1
  case Hbc =>
    exact ((automod_progressive_punishment [(1, [(2, [10, 20, 30, 40])])] ⟨[], []⟩
      1 2 99).2.2.2 (by decide)).2

/-! ## Raid tracker (`cogs/antiraid.py`, class `RaidTracker`)

One guild's slice of the tracker: join timestamps, suspicious member ids,
and the lockdown state (`_lockdown` flag plus optional `_lockdown_until`
instant, in seconds). -/

structure RaidTracker : Type where
  joins : List Nat
  suspicious : List Nat
  lockdown : Bool
  lockdown_until : Option Nat

/-- `RaidTracker.record_join` (antiraid.py lines 53-71): append the join
timestamp (no pruning here), flag the member if suspicious, and return the
unpruned join count. -/
def RaidTracker.record_join (rt : RaidTracker) (member_id : Nat)
    (is_suspicious : Bool) (now : Nat) : RaidTracker × Nat :=
  let rt' := { rt with
    joins := rt.joins ++ [now],
    suspicious := if is_suspicious then rt.suspicious ++ [member_id] else rt.suspicious }
  (rt', rt'.joins.length)

/-- `RaidTracker.get_recent_joins` (antiraid.py lines 73-89): prune joins
older than the window (keep `ts > now - seconds`, i.e. `now < ts + seconds`)
and return the count. -/
def RaidTracker.get_recent_joins (rt : RaidTracker) (seconds now : Nat) :
    RaidTracker × Nat :=
  let js := rt.joins.filter (fun ts => decide (now < ts + seconds))
  ({ rt with joins := js }, js.length)

/-- `RaidTracker.is_locked_down` (antiraid.py lines 99-109): lazily clears
an expired lockdown (`now > lockdown_until`) as a side effect of the read. -/
def RaidTracker.is_locked_down (rt : RaidTracker) (now : Nat) : Bool × RaidTracker :=
  if rt.lockdown then
    match rt.lockdown_until with
    | some t =>
      if now > t then (false, { rt with lockdown := false, lockdown_until := none })
      else (true, rt)
    | none => (true, rt)
  else (false, rt)

/-- `RaidTracker.set_lockdown` (antiraid.py lines 111-131): the expiry is
set only when `enabled and duration_minutes` is truthy in Python, i.e. the
duration is present and non-zero. -/
def RaidTracker.set_lockdown (rt : RaidTracker) (enabled : Bool)
    (duration_minutes : Option Nat) (now : Nat) : RaidTracker :=
  { rt with
    lockdown := enabled,
    lockdown_until :=
      match duration_minutes with
      | some d => if enabled = true ∧ d ≠ 0 then some (now + d * 60) else none
      | none => none }

/-- `RaidTracker.get_lockdown_end` (antiraid.py lines 133-135). -/
def RaidTracker.get_lockdown_end (rt : RaidTracker) : Option Nat :=
  rt.lockdown_until

/-- `RaidTracker.clear_suspicious` (antiraid.py lines 95-97). -/
def RaidTracker.clear_suspicious (rt : RaidTracker) : RaidTracker :=
  { rt with suspicious := [] }

/-- Claim C4: lockdown lazy expiry — `isLockedDown` returns `true`
immediately after `setLockdown(guild, true, 30)`, and any check performed
after the 30-minute expiry has passed returns `false` without an explicit
disable call, that same check clearing the active flag and the stored
expiry timestamp. -/
theorem raidtracker_lockdown_lazy_expiry (rt : RaidTracker) (now now2 : Nat)
    (h : now + 30 * 60 < now2) :
    ((rt.set_lockdown true (some 30) now).is_locked_down now).1 = true
    ∧ (rt.set_lockdown true (some 30) now).is_locked_down now2
        = (false, ⟨rt.joins, rt.suspicious, false, none⟩) := by
  constructor
  · simp [RaidTracker.set_lockdown, RaidTracker.is_locked_down]
  · have hgt : now + 1800 < now2 := by omega
    simp [RaidTracker.set_lockdown, RaidTracker.is_locked_down, hgt]

theorem raidtracker_lockdown_lazy_expiry_witness :
    ((RaidTracker.set_lockdown ⟨[], [], false, none⟩ true (some 30) 0).is_locked_down 0).1
        = true
    ∧ (RaidTracker.set_lockdown ⟨[], [], false, none⟩ true (some 30) 0).is_locked_down 1801
        = (false, ⟨[], [], false, none⟩) :=
  raidtracker_lockdown_lazy_expiry ⟨[], [], false, none⟩ 0 1801 (by decide)

/-- One guild's iteration of the periodic sweep `AntiRaid.check_lockdowns`
(antiraid.py lines 413-428), with a single injected `now` for both of its
clock reads: announce expiry when `is_locked_down` is true and `now` is
past the recorded end time (read after the lazy-expiry check mutated the
tracker). -/
def AntiRaid.check_lockdowns_announces (rt : RaidTracker) (now : Nat) : Bool :=
  let chk := rt.is_locked_down now
  chk.1 && (match chk.2.get_lockdown_end with
            | some t => decide (now > t)
            | none => false)

/-- Counterexample to claim C10 as stated: at the boundary instant
`now = lockdown_until` the check still returns `true` (the code clears
only when `now > lockdown_until`), yet the stored end time is not
*strictly* later than the `now` used by that check. -/
theorem raidtracker_lockdown_boundary_cx :
    ((RaidTracker.is_locked_down ⟨[], [], true, some 100⟩ 100).1 = true)
    ∧ RaidTracker.get_lockdown_end ⟨[], [], true, some 100⟩ = some 100
    ∧ ¬ (100 : Nat) < 100 := by
  refine ⟨by rfl, by rfl, by omega⟩

/-- Claim C10 (amended): whenever `is_locked_down(guild)` returns `true`,
the stored lockdown end time is either `None` (indefinite) or no earlier
than the `now` used by that check (`now ≤ end`); consequently the sweep's
expiry-announcement condition, evaluated with that same `now`, can never
hold, so the proactive lockdown-expiry announcement is never sent by an
iteration whose two clock reads coincide. -/
theorem raidtracker_lockdown_sweep_silent (rt : RaidTracker) (now : Nat)
    (h : (rt.is_locked_down now).1 = true) :
    (rt.get_lockdown_end = none
      ∨ ∃ t, rt.get_lockdown_end = some t ∧ now ≤ t)
    ∧ AntiRaid.check_lockdowns_announces rt now = false := by
  obtain ⟨js, su, ld, lu⟩ := rt
  cases ld with
  | false => simp [RaidTracker.is_locked_down] at h
  | true =>
    cases lu with
    | none =>
      refine ⟨Or.inl rfl, ?_⟩
      simp [AntiRaid.check_lockdowns_announces, RaidTracker.is_locked_down,
        RaidTracker.get_lockdown_end]
    | some t =>
      by_cases hnt : now > t
      · simp [RaidTracker.is_locked_down, hnt] at h
      · refine ⟨Or.inr ⟨t, rfl, by omega⟩, ?_⟩
        simp [AntiRaid.check_lockdowns_announces, RaidTracker.is_locked_down,
          RaidTracker.get_lockdown_end, hnt]

theorem raidtracker_lockdown_sweep_silent_witness :
    ((⟨[], [], true, some 5⟩ : RaidTracker).get_lockdown_end = none
      ∨ ∃ t, (⟨[], [], true, some 5⟩ : RaidTracker).get_lockdown_end = some t ∧ 3 ≤ t)
    ∧ AntiRaid.check_lockdowns_announces ⟨[], [], true, some 5⟩ 3 = false :=
  raidtracker_lockdown_sweep_silent ⟨[], [], true, some 5⟩ 3 (by rfl)

/-! ## Anti-raid cog (`cogs/antiraid.py`, class `AntiRaid`)

One guild's view of the cog: the tracker plus the raid-response debounce
marker.  The marker models membership of the guild id in
`_responding_to_raid`: `_handle_raid_detection` adds the id on entry and
discards it after its actions and a fixed `asyncio.sleep(60)`, so with
actions treated as instantaneous the id is a member during
`[entry, entry + 60)`; `responding_until` records that release instant.
External effects (kicks, verification-level change, log sends) do not feed
back into this state and are not modelled, except the success of the
lockdown kick in `on_member_join` (`kick_ok`), which decides whether the
handler returns early. -/

structure AntiRaidConfig : Type where
  enabled : Bool
  join_threshold : Nat
  join_window_seconds : Nat
  auto_lockdown : Bool
  lockdown_duration_minutes : Nat
  kick_suspicious_on_raid : Bool

/-- `AntiRaid.DEFAULT_CONFIG` (antiraid.py lines 151-161), restricted to
the fields the modelled control flow reads. -/
def defaultAntiRaidConfig : AntiRaidConfig :=
  ⟨true, 10, 60, true, 30, false⟩

structure AntiRaidCog : Type where
  tracker : RaidTracker
  responding_until : Option Nat

/-- Membership of the guild id in `_responding_to_raid` at instant `now`. -/
def AntiRaid.respondingActive (c : AntiRaidCog) (now : Nat) : Bool :=
  match c.responding_until with
  | some r => decide (now < r)
  | none => false

/-- What a join event reported for one guild: whether the member was
kicked by the lockdown gate (and the handler returned early), whether the
suspicious-join advisory was reached, and whether a raid-response
transition was started. -/
structure JoinOutcome : Type where
  kicked_for_lockdown : Bool
  advisory : Bool
  raid_transition : Bool
deriving DecidableEq

/-- `AntiRaid._handle_raid_detection` (antiraid.py lines 258-353): return
immediately if the guild is already being handled; otherwise enable the
configured auto-lockdown, clear the suspicious list only when the
kick-suspicious setting is on and the list is non-empty, and hold the
debounce marker until `now + 60` (the fixed cooldown).  The returned `Bool`
is whether a raid-response transition was started. -/
def AntiRaid.handle_raid_detection (cfg : AntiRaidConfig) (c : AntiRaidCog)
    (now : Nat) : AntiRaidCog × Bool :=
  if AntiRaid.respondingActive c now then (c, false)
  else
    let t1 := if cfg.auto_lockdown then
        c.tracker.set_lockdown true (some cfg.lockdown_duration_minutes) now
      else c.tracker
    let t2 := if !t1.suspicious.isEmpty && cfg.kick_suspicious_on_raid then
        t1.clear_suspicious
      else t1
    (⟨t2, some (now + 60)⟩, true)

/-- `AntiRaid.on_member_join` (antiraid.py lines 355-411): record the join,
then the lockdown gate — the kick and the early `return` sit inside a
`try`, so only a *successful* kick (`kick_ok`) stops processing, a raised
`HTTPException` falls through — then the suspicious advisory, then the
raid-threshold evaluation. -/
def AntiRaid.on_member_join (cfg : AntiRaidConfig) (c : AntiRaidCog)
    (member_id : Nat) (is_suspicious : Bool) (now : Nat) (kick_ok : Bool) :
    AntiRaidCog × JoinOutcome :=
  if cfg.enabled = false then (c, ⟨false, false, false⟩)
  else
    let t1 := (c.tracker.record_join member_id is_suspicious now).1
    let chk := t1.is_locked_down now
    if chk.1 && kick_ok then
      (⟨chk.2, c.responding_until⟩, ⟨true, false, false⟩)
    else
      let rec1 := chk.2.get_recent_joins cfg.join_window_seconds now
      let c3 : AntiRaidCog := ⟨rec1.1, c.responding_until⟩
      if rec1.2 ≥ cfg.join_threshold then
        let h := AntiRaid.handle_raid_detection cfg c3 now
        (h.1, ⟨false, is_suspicious, h.2⟩)
      else
        (c3, ⟨false, is_suspicious, false⟩)

/-- A sequence of join events for one guild (none suspicious, lockdown
kicks succeeding), returning the final state and how many raid-response
transitions were started. -/
def runJoins (cfg : AntiRaidConfig) (c : AntiRaidCog) : List Nat → AntiRaidCog × Nat
  | [] => (c, 0)
  | t :: rest =>
    let r := AntiRaid.on_member_join cfg c 0 false t true
    let rec1 := runJoins cfg r.1 rest
    (rec1.1, (if r.2.raid_transition then 1 else 0) + rec1.2)

/-- The raid-scenario configuration of claim C5: `joinThreshold = 10`,
`windowSeconds = 60`, auto-lockdown off so that the debounce (not the
lockdown gate) is what is exercised. -/
def raidScenarioConfig : AntiRaidConfig :=
  ⟨true, 10, 60, false, 30, false⟩

/-- `record_join` touches only `joins`/`suspicious`, so it does not change
what `is_locked_down` returns. -/
theorem is_locked_down_fst_record (rt : RaidTracker) (m : Nat) (s : Bool)
    (t now : Nat) :
    (((rt.record_join m s t).1).is_locked_down now).1 = (rt.is_locked_down now).1 := by
  obtain ⟨js, su, ld, lu⟩ := rt
  cases ld with
  | false => simp [RaidTracker.record_join, RaidTracker.is_locked_down]
  | true =>
    cases lu with
    | none => simp [RaidTracker.record_join, RaidTracker.is_locked_down]
    | some t' =>
      by_cases h : now > t' <;>
        simp [RaidTracker.record_join, RaidTracker.is_locked_down, h]

/-- Counterexample to claim C6 as stated: with the guild locked down
(indefinitely) but the kick attempt failing (`HTTPException`, e.g. missing
permission), processing does *not* stop: the suspicious-join advisory is
still emitted (first conjunct), and with nine earlier joins in the window
the raid-threshold evaluation still runs and starts a raid-response
transition (second conjunct) — all while the member was not kicked. -/
theorem antiraid_lockdown_shortcircuit_cx :
    (AntiRaid.on_member_join defaultAntiRaidConfig
        ⟨⟨[], [], true, none⟩, none⟩ 7 true 100 false).2
      = ⟨false, true, false⟩
    ∧ (AntiRaid.on_member_join defaultAntiRaidConfig
        ⟨⟨[91, 92, 93, 94, 95, 96, 97, 98, 99], [], true, none⟩, none⟩ 0 false 100
          false).2
      = ⟨false, false, true⟩ := by decide

/-- Claim C6 (amended): for every join event processed while the guild is
locked down, a kick of the new member is attempted before the
raid-threshold evaluation; when the kick succeeds, processing stops — the
member is reported kicked, no suspicious-join advisory is emitted and no
raid-response transition is started for that event, for all joins
suspicious or not.  When the kick attempt fails, processing falls through:
the member is not kicked and the advisory is emitted exactly when the join
is suspicious. -/
theorem antiraid_lockdown_shortcircuit (cfg : AntiRaidConfig) (c : AntiRaidCog)
    (m : Nat) (s : Bool) (now : Nat)
    (hen : cfg.enabled = true)
    (hlock : ((c.tracker).is_locked_down now).1 = true) :
    (AntiRaid.on_member_join cfg c m s now true).2 = ⟨true, false, false⟩
    ∧ (AntiRaid.on_member_join cfg c m s now false).2.kicked_for_lockdown = false
    ∧ (AntiRaid.on_member_join cfg c m s now false).2.advisory = s := by
  have hrec := is_locked_down_fst_record c.tracker m s now now
  rw [hlock] at hrec
  refine ⟨?_, ?_, ?_⟩
  · simp [AntiRaid.on_member_join, hen, hrec]
  · simp only [AntiRaid.on_member_join, hen, hrec]
    rw [if_neg (by simp [hen])]
    rw [if_neg (by simp)]
    split <;> rfl
  · simp only [AntiRaid.on_member_join, hen, hrec]
    rw [if_neg (by simp [hen])]
    rw [if_neg (by simp)]
    split <;> rfl

theorem antiraid_lockdown_shortcircuit_witness :
    (AntiRaid.on_member_join defaultAntiRaidConfig
        ⟨⟨[], [], true, none⟩, none⟩ 7 true 100 true).2 = ⟨true, false, false⟩
    ∧ (AntiRaid.on_member_join defaultAntiRaidConfig
        ⟨⟨[], [], true, none⟩, none⟩ 7 true 100 false).2.kicked_for_lockdown = false
    ∧ (AntiRaid.on_member_join defaultAntiRaidConfig
        ⟨⟨[], [], true, none⟩, none⟩ 7 true 100 false).2.advisory = true :=
  antiraid_lockdown_shortcircuit defaultAntiRaidConfig ⟨⟨[], [], true, none⟩, none⟩
    7 true 100 (by rfl) (by rfl)

/-- While the guild id is in the debounce set, `_handle_raid_detection`
returns immediately and starts nothing. -/
theorem handle_raid_detection_debounced (cfg : AntiRaidConfig) (c : AntiRaidCog)
    (now : Nat) (h : AntiRaid.respondingActive c now = true) :
    AntiRaid.handle_raid_detection cfg c now = (c, false) := by
  simp [AntiRaid.handle_raid_detection, h]

theorem respondingActive_tracker_irrel (tr : RaidTracker) (c : AntiRaidCog)
    (now : Nat) :
    AntiRaid.respondingActive ⟨tr, c.responding_until⟩ now
      = AntiRaid.respondingActive c now := rfl

theorem runJoins_split (cfg : AntiRaidConfig) (l1 l2 : List Nat) :
    ∀ c : AntiRaidCog,
      runJoins cfg c (l1 ++ l2)
        = ((runJoins cfg (runJoins cfg c l1).1 l2).1,
           (runJoins cfg c l1).2 + (runJoins cfg (runJoins cfg c l1).1 l2).2) := by
  induction l1 with
  | nil => intro c; simp [runJoins]
  | cons t rest ih =>
    intro c
    simp [runJoins, ih, Nat.add_assoc]

/-- A burst of joins that stays strictly below the threshold: every join is
recorded, nothing is pruned (all joins are within the window of each
other), the guild never locks (the scenario config has auto-lockdown off
and the initial state is unlocked), and no raid-response transition
starts. -/
theorem runJoins_below_threshold : ∀ (ts prev : List Nat),
    (∀ a ∈ prev ++ ts, ∀ b ∈ prev ++ ts, b < a + 60) →
    prev.length + ts.length < 10 →
    runJoins raidScenarioConfig ⟨⟨prev, [], false, none⟩, none⟩ ts
      = (⟨⟨prev ++ ts, [], false, none⟩, none⟩, 0) := by
  intro ts
  induction ts with
  | nil => intro prev _ _; simp [runJoins]
  | cons t rest ih =>
    intro prev hW hlen
    simp only [List.length_cons] at hlen
    have hfilter : (prev ++ [t]).filter (fun x => decide (t < x + 60)) = prev ++ [t] := by
      apply List.filter_eq_self.mpr
      intro a ha
      have haL : a ∈ prev ++ t :: rest := by
        rcases List.mem_append.mp ha with h | h
        · exact List.mem_append.mpr (Or.inl h)
        · simp at h
          subst h
          exact List.mem_append.mpr (Or.inr (List.mem_cons_self _ _))
      have htL : t ∈ prev ++ t :: rest :=
        List.mem_append.mpr (Or.inr (List.mem_cons_self _ _))
      exact decide_eq_true (hW a haL t htL)
    have hnotge : ¬ (10 ≤ prev.length + 1) := by omega
    have hstep : AntiRaid.on_member_join raidScenarioConfig
        ⟨⟨prev, [], false, none⟩, none⟩ 0 false t true
        = (⟨⟨prev ++ [t], [], false, none⟩, none⟩, ⟨false, false, false⟩) := by
      simp [AntiRaid.on_member_join, RaidTracker.record_join,
        RaidTracker.is_locked_down, RaidTracker.get_recent_joins,
        raidScenarioConfig, hfilter, hnotge]
    simp only [runJoins]
    rw [hstep]
    have hW' : ∀ a ∈ (prev ++ [t]) ++ rest, ∀ b ∈ (prev ++ [t]) ++ rest, b < a + 60 := by
      simpa [List.append_assoc] using hW
    have hlen' : (prev ++ [t]).length + rest.length < 10 := by
      simp only [List.length_append, List.length_cons, List.length_nil]
      omega
    rw [ih (prev ++ [t]) hW' hlen']
    simp [List.append_assoc]

/-- Claim C5: raid-response debounce with `joinThreshold = 10` and
`windowSeconds = 60` (auto-lockdown off, so the debounce is what is
exercised).  (i) Ten joins within 60 seconds of each other, from a clean
state, trigger exactly one raid-response transition, after which the
debounce marker is held until 60 seconds past the transition.  (ii) While
a guild id is in the debounce set, no join can start a second
raid-response transition for that guild.  (iii) Once the fixed 60-second
cooldown has released the marker, a later join that crosses the threshold
anew (and meets no lockdown) starts a transition again. -/
theorem antiraid_debounce_single_transition (ts9 : List Nat) (t10 : Nat)
    (h9 : ts9.length = 9)
    (hW : ∀ a ∈ ts9 ++ [t10], ∀ b ∈ ts9 ++ [t10], b < a + 60) :
    runJoins raidScenarioConfig ⟨⟨[], [], false, none⟩, none⟩ (ts9 ++ [t10])
      = (⟨⟨ts9 ++ [t10], [], false, none⟩, some (t10 + 60)⟩, 1)
    ∧ (∀ (c : AntiRaidCog) (m : Nat) (s : Bool) (now : Nat) (kok : Bool),
        AntiRaid.respondingActive c now = true →
        (AntiRaid.on_member_join raidScenarioConfig c m s now kok).2.raid_transition
          = false)
    ∧ (∀ (c : AntiRaidCog) (m : Nat) (now r : Nat),
        c.responding_until = some r → r ≤ now →
        c.tracker.lockdown = false →
        10 ≤ ((c.tracker.joins ++ [now]).filter (fun x => decide (now < x + 60))).length →
        (AntiRaid.on_member_join raidScenarioConfig c m false now true).2.raid_transition
          = true) := by
  refine ⟨?_, ?_, ?_⟩
  · -- (i): nine below-threshold joins, then the tenth triggers once.
    rw [runJoins_split]
    have hW9 : ∀ a ∈ ([] : List Nat) ++ ts9, ∀ b ∈ ([] : List Nat) ++ ts9, b < a + 60 := by
      intro a ha b hb
      simp only [List.nil_append] at ha hb
      exact hW a (List.mem_append.mpr (Or.inl ha)) b (List.mem_append.mpr (Or.inl hb))
    have hrun9 := runJoins_below_threshold ts9 [] hW9 (by simp [h9])
    simp only [List.nil_append] at hrun9
    rw [hrun9]
    have hfilter : (ts9 ++ [t10]).filter (fun x => decide (t10 < x + 60)) = ts9 ++ [t10] := by
      apply List.filter_eq_self.mpr
      intro a ha
      exact decide_eq_true
        (hW a ha t10 (List.mem_append.mpr (Or.inr (List.mem_cons_self _ _))))
    have hge : 9 ≤ ts9.length := by omega
    have hstep : AntiRaid.on_member_join raidScenarioConfig
        ⟨⟨ts9, [], false, none⟩, none⟩ 0 false t10 true
        = (⟨⟨ts9 ++ [t10], [], false, none⟩, some (t10 + 60)⟩, ⟨false, false, true⟩) := by
      simp [AntiRaid.on_member_join, RaidTracker.record_join,
        RaidTracker.is_locked_down, RaidTracker.get_recent_joins,
        AntiRaid.handle_raid_detection, AntiRaid.respondingActive,
        RaidTracker.clear_suspicious, raidScenarioConfig, hfilter, hge]
    simp only [runJoins]
    rw [hstep]
    simp
  · -- (ii): the debounce marker blocks any second transition.
    intro c m s now kok hact
    simp only [AntiRaid.on_member_join]
    rw [if_neg (by decide)]
    split
    · rfl
    · split
      · rw [handle_raid_detection_debounced raidScenarioConfig _ now
          (by rw [respondingActive_tracker_irrel]; exact hact)]
      · rfl
  · -- (iii): after release, a threshold-crossing join triggers again.
    intro c m now r hru hr hld hcount
    obtain ⟨⟨js, su, ld, lu⟩, ru⟩ := c
    simp only at hru hld hcount
    subst hru
    subst hld
    have hnlt : ¬ (now < r) := by omega
    simp [AntiRaid.on_member_join, RaidTracker.record_join,
      RaidTracker.is_locked_down, RaidTracker.get_recent_joins,
      AntiRaid.handle_raid_detection, AntiRaid.respondingActive,
      raidScenarioConfig, hnlt]
    have hcount' : 9 ≤ (js.filter (fun ts => decide (now < ts + 60))).length := by
      have h60 : now < now + 60 := by omega
      simp [List.filter_append, h60] at hcount
      omega
    rw [if_pos hcount']

theorem antiraid_debounce_single_transition_witness :
    runJoins raidScenarioConfig ⟨⟨[], [], false, none⟩, none⟩
        [0, 1, 2, 3, 4, 5, 6, 7, 8, 9]
      = (⟨⟨[0, 1, 2, 3, 4, 5, 6, 7, 8, 9], [], false, none⟩, some 69⟩, 1)
    ∧ (AntiRaid.on_member_join raidScenarioConfig
        ⟨⟨[0, 1, 2, 3, 4, 5, 6, 7, 8, 9], [], false, none⟩, some 69⟩
        11 false 30 true).2.raid_transition = false
    ∧ (AntiRaid.on_member_join raidScenarioConfig
        ⟨⟨[100, 101, 102, 103, 104, 105, 106, 107, 108], [], false, none⟩, some 69⟩
        12 false 130 true).2.raid_transition = true := by
  have h := antiraid_debounce_single_transition [0, 1, 2, 3, 4, 5, 6, 7, 8] 9
    (by decide) (by decide)
  exact ⟨h.1, h.2.1 ⟨⟨[0, 1, 2, 3, 4, 5, 6, 7, 8, 9], [], false, none⟩, some 69⟩
      11 false 30 true (by decide),
    h.2.2 ⟨⟨[100, 101, 102, 103, 104, 105, 106, 107, 108], [], false, none⟩, some 69⟩
      12 130 69 rfl (by decide) rfl (by decide)⟩
